import Mathlib

/-!
Shallow embedding of the GeoGuide application (React chat + map client in
`src/App.tsx`, Gemini service `chatWithMaps` in `src/services/geminiService.ts`,
Express server in `server.ts`, Leaflet map component `src/components/Map.tsx`).

Client state (`useState` hooks of `App`) is modelled as the record `AppState`;
each event handler becomes a pure state-transition function.  External
non-determinism (the generative-API response, upstream GitHub responses, the
token exchange) is passed in as an explicit argument.  Outbound network calls
are recorded in an `Effects` record so that claims about "no network call" can
be stated.
-/

namespace GeoGuide

/-! ## String helpers (models of the JavaScript string operations used) -/

/-- Model of `String.prototype.trim`: drop leading and trailing whitespace. -/
def jsTrim (s : String) : String :=
  String.mk (((s.toList.dropWhile Char.isWhitespace).reverse.dropWhile
      Char.isWhitespace).reverse)

/-- Test that `p` is a leading segment of `l` (character lists). -/
def charsHaveLead : List Char → List Char → Bool
  | [], _ => true
  | _ :: _, [] => false
  | p :: ps, c :: cs => p == c && charsHaveLead ps cs

/-- Test that `pat` occurs as a contiguous run inside `l`. -/
def charsContain (pat : List Char) : List Char → Bool
  | [] => pat.isEmpty
  | c :: rest => charsHaveLead pat (c :: rest) || charsContain pat rest

/-- Model of `String.prototype.includes`. -/
def strIncludes (s pat : String) : Bool :=
  charsContain pat.toList s.toList

/-- Model of `String.prototype.endsWith`. -/
def strEndsWith (s suffx : String) : Bool :=
  charsHaveLead suffx.toList.reverse s.toList.reverse

/-- Model of `String.prototype.startsWith`. -/
def strStartsWith (s pre : String) : Bool :=
  charsHaveLead pre.toList s.toList

/-! ## Data model (geminiService.ts and App.tsx) -/

/-- The role of a `ChatMessage`, the union type `"user" | "model"`. -/
inductive Role where
  | user
  | model
deriving DecidableEq, Repr

/-- Type `MapResult` from geminiService.ts: a maps grounding citation. -/
structure MapResult where
  uri : String
  title : String
deriving DecidableEq, Repr

/-- Type `ChatMessage` from geminiService.ts. -/
structure ChatMessage where
  role : Role
  text : String
  mapResults : Option (List MapResult) := none
deriving DecidableEq, Repr

/-- A maps grounding chunk (`chunk.maps`) of the generative-API response. -/
structure MapsChunk where
  uri : String
  title : Option String
deriving DecidableEq, Repr

/-- A grounding chunk of the generative-API response. -/
structure GroundingChunk where
  maps : Option MapsChunk
deriving DecidableEq, Repr

/-- The parts of `GenerateContentResponse` the program reads: `text`,
`functionCalls` (modelled by the list of call names) and
`candidates[0].groundingMetadata.groundingChunks`. -/
structure GenResponse where
  text : Option String
  functionCalls : Option (List String)
  groundingChunks : Option (List GroundingChunk)
deriving DecidableEq, Repr

/-- GitHub profile fields the client reads. -/
structure GithubUser where
  login : String
  name : Option String
  avatar_url : String
deriving DecidableEq, Repr

/-- GitHub repository fields the client reads. -/
structure Repo where
  name : String
  html_url : String
  description : Option String
deriving DecidableEq, Repr

/-- A device coordinate. -/
structure Coord where
  latitude : ℚ
  longitude : ℚ
deriving DecidableEq, Repr

/-! ## chatWithMaps (geminiService.ts) -/

/-- The fixed assistant error message returned by `chatWithMaps` on any
transport or API error. -/
def errorChatMessage : ChatMessage :=
  { role := Role.model
    text := "I encountered an error while trying to find that information. Please try again." }

/-- The `{} as any` response returned together with the error message: every
field the caller reads is absent. -/
def emptyResponse : GenResponse :=
  { text := none, functionCalls := none, groundingChunks := none }

/-- Function `chatWithMaps` (geminiService.ts, lines 403-463).  The single outbound
`generateContent` call is modelled by its outcome `out`: `.ok r` when the API
returned response `r`, `.error ()` on any thrown transport/API error.  On
success the text defaults to `""`, and the maps grounding chunks are collected
into `mapResults` in API order; on error the fixed error message is returned. -/
def chatWithMaps (out : Except Unit GenResponse) : GenResponse × ChatMessage :=
  match out with
  | Except.error _ => (emptyResponse, errorChatMessage)
  | Except.ok response =>
    let text := response.text.getD ""
    let mapResults : List MapResult :=
      (response.groundingChunks.getD []).filterMap fun chunk =>
        chunk.maps.map fun m =>
          { uri := m.uri, title := m.title.getD "View on Google Maps" }
    (response,
      { role := Role.model
        text := text
        mapResults := if mapResults.length > 0 then some mapResults else none })

/-! ## App state (App.tsx useState hooks) -/

/-- The `useState` hooks of `App` (App.tsx, lines 26-38). -/
structure AppState where
  messages : List ChatMessage
  input : String
  isLoading : Bool
  location : Option Coord
  mapCenter : ℚ × ℚ
  zoom : Int
  githubUser : Option GithubUser
  githubRepos : List Repo
deriving DecidableEq, Repr

/-- The initial greeting message (App.tsx, lines 27-30). -/
def greetingMessage : ChatMessage :=
  { role := Role.model
    text := "Hi! I\u0027m GeoGuide. I can help you find restaurants, landmarks, or anything else nearby using real-time Google Maps data. I can also connect to your GitHub now! Where would you like to explore today?" }

/-- The initial client state (App.tsx, lines 26-38): one greeting message,
empty input, not loading, no location, map centred on London at zoom 13, no
linked GitHub account. -/
def initialState : AppState :=
  { messages := [greetingMessage]
    input := ""
    isLoading := false
    location := none
    mapCenter := (51.505, -0.09)
    zoom := 13
    githubUser := none
    githubRepos := [] }

/-- Outbound network calls performed by one client operation. -/
structure Effects where
  genCalls : Nat := 0
  userFetches : Nat := 0
  reposFetches : Nat := 0
deriving DecidableEq, Repr

/-! ## handleSend (App.tsx, lines 113-152) -/

/-- The fixed prompt-to-link assistant message (App.tsx, lines 129-132). -/
def connectPromptMessage : ChatMessage :=
  { role := Role.model
    text := "You haven\u0027t connected your GitHub account yet. Please click the \u0027Connect GitHub\u0027 button below to see your repositories." }

/-- Model of `r.description || "No description"` (App.tsx, line 134): JavaScript
falsiness replaces an absent or empty description. -/
def descOr (d : Option String) : String :=
  match d with
  | none => "No description"
  | some s => if s == "" then "No description" else s

/-- One bullet line of the repository list (App.tsx, line 134). -/
def repoLine (r : Repo) : String :=
  "- [" ++ r.name ++ "](" ++ r.html_url ++ "): " ++ descOr r.description

/-- The assistant message listing the cached repositories
(App.tsx, lines 134-138). -/
def repoListMessage (repos : List Repo) : ChatMessage :=
  { role := Role.model
    text := "Here are your most recent GitHub repositories:\n\n"
      ++ String.intercalate "\n" (repos.map repoLine) }

/-- Whether the `for (const call of response.functionCalls)` loop finds a call
named `list_github_repositories` (App.tsx, lines 125-127); an absent
`functionCalls` field skips the loop. -/
def hasListReposCall (fcs : Option (List String)) : Bool :=
  match fcs with
  | none => false
  | some calls => calls.contains "list_github_repositories"

/-- Function `handleSend` (App.tsx, lines 113-152).  Guard: return immediately when the
trimmed input is empty or a request is in flight.  Otherwise append the user
message, clear the input, set the loading flag, make the one `chatWithMaps`
call (outcome `out`), then: on a `list_github_repositories` function call
branch locally on the linked-account state and append the fixed prompt or the
formatted repository list; otherwise append the returned chat message.  The
loading flag is cleared on every path (the `finally` block / the explicit
`setIsLoading(false)` before the early return). -/
def handleSend (s : AppState) (out : Except Unit GenResponse) :
    AppState × Effects :=
  if (jsTrim s.input == "") || s.isLoading then (s, {})
  else
    let userMessage : ChatMessage := { role := Role.user, text := s.input }
    let s1 : AppState :=
      { s with messages := s.messages ++ [userMessage], input := "", isLoading := true }
    let rc := chatWithMaps out
    if hasListReposCall rc.1.functionCalls then
      if s1.githubUser.isNone then
        ({ s1 with messages := s1.messages ++ [connectPromptMessage], isLoading := false },
          { genCalls := 1 })
      else
        ({ s1 with
            messages := s1.messages ++ [repoListMessage s1.githubRepos]
            isLoading := false },
          { genCalls := 1 })
    else
      ({ s1 with messages := s1.messages ++ [rc.2], isLoading := false },
        { genCalls := 1 })

/-! ## The cross-window message handler (App.tsx, lines 45-57) -/

/-- The fields of a cross-window message payload the handler reads. -/
structure MessageData where
  type : Option String
  provider : Option String
deriving DecidableEq, Repr

/-- The origin filter of `handleMessage` (App.tsx, line 48): the early return
fires unless the origin ends with `.run.app` or contains `localhost`. -/
def acceptOrigin (origin : String) : Bool :=
  strEndsWith origin ".run.app" || strIncludes origin "localhost"

/-- The payload test of `handleMessage` (App.tsx, line 51). -/
def isOauthSuccess (data : Option MessageData) : Bool :=
  match data with
  | none => false
  | some d => d.type == some "OAUTH_AUTH_SUCCESS" && d.provider == some "github"

/-- Modelled from the spec: the set of sender origins the spec allows —
"an origin matching the deployed application host or a local-development
host" (spec §6).  The deployed host is the parameter `appOrigin`; a
local-development origin is one served from `localhost` or `127.0.0.1`. -/
def specAllowedOrigin (appOrigin origin : String) : Bool :=
  origin == appOrigin
    || strStartsWith origin "http://localhost"
    || strStartsWith origin "http://127.0.0.1"

/-! ## Client operations and the step function -/

/-- Every operation of the client that can change `AppState`.  The payloads
carry the environment inputs the corresponding handler consumes. -/
inductive AppOp where
  /-- A chat submission (`handleSend`) with the given API-call outcome. -/
  | send (out : Except Unit GenResponse)
  /-- Typing into the textarea (`setInput`). -/
  | setInput (t : String)
  /-- A cross-window message event with the given origin and payload. -/
  | oauthMessage (origin : String) (data : Option MessageData)
  /-- Completion of the `/api/github/user` fetch: `some u` when `res.ok`
  delivered profile `u`, `none` on a non-ok or failed fetch. -/
  | fetchUserResult (result : Option GithubUser)
  /-- Completion of the `/api/github/repos` fetch. -/
  | fetchReposResult (result : Option (List Repo))
  /-- Successful geolocation acquisition (App.tsx, lines 96-101). -/
  | geolocateOk (c : Coord)
  /-- Failed geolocation acquisition: only logs. -/
  | geolocateErr
  /-- A map click at `(lat, lng)` (`onLocationSelect`, App.tsx 332-335). -/
  | mapClick (lat lng : ℚ)
  /-- The recenter button (App.tsx, line 353). -/
  | recenter
  /-- The `+` zoom button (App.tsx, line 361). -/
  | zoomIn
  /-- The `−` zoom button (App.tsx, line 367). -/
  | zoomOut
  /-- The Clear Chat button (App.tsx, line 321): it has no click handler. -/
  | clearChat

/-- The client as one transition function: each operation handler from
App.tsx, returning the next state and the outbound calls made. -/
def step (s : AppState) (op : AppOp) : AppState × Effects :=
  match op with
  | AppOp.send out => handleSend s out
  | AppOp.setInput t => ({ s with input := t }, {})
  | AppOp.oauthMessage origin data =>
    if acceptOrigin origin then
      if isOauthSuccess data then (s, { userFetches := 1 }) else (s, {})
    else (s, {})
  | AppOp.fetchUserResult result =>
    match result with
    | some u => ({ s with githubUser := some u }, { reposFetches := 1 })
    | none => (s, {})
  | AppOp.fetchReposResult result =>
    match result with
    | some repos => ({ s with githubRepos := repos }, {})
    | none => (s, {})
  | AppOp.geolocateOk c =>
    ({ s with location := some c, mapCenter := (c.latitude, c.longitude) }, {})
  | AppOp.geolocateErr => (s, {})
  | AppOp.mapClick lat lng => ({ s with mapCenter := (lat, lng), zoom := 15 }, {})
  | AppOp.recenter =>
    match s.location with
    | some c => ({ s with mapCenter := (c.latitude, c.longitude) }, {})
    | none => (s, {})
  | AppOp.zoomIn => ({ s with zoom := min (s.zoom + 1) 18 }, {})
  | AppOp.zoomOut => ({ s with zoom := max (s.zoom - 1) 3 }, {})
  | AppOp.clearChat => (s, {})

/-- Run a sequence of operations from a state. -/
def run (s : AppState) (ops : List AppOp) : AppState :=
  ops.foldl (fun t op => (step t op).1) s

/-! ## Server (server.ts) -/

/-- The cookie session: at most the `githubToken` key is ever written. -/
structure Session where
  githubToken : Option String
deriving DecidableEq, Repr

/-- The query string of a callback request, as Express parses it: each of
`code` and `state` is absent or a string (possibly empty, as in `?code=`). -/
structure CallbackQuery where
  code : Option String
  state : Option String
deriving DecidableEq, Repr

/-- Result of one request to `GET /api/auth/github/callback`. -/
structure CallbackResult where
  status : Nat
  session : Session
  exchangeCalled : Bool
deriving DecidableEq, Repr

/-- Endpoint `GET /api/auth/github/callback` (server.ts, lines 38-82).  `exchange` is
the outcome of the server-to-server token exchange (`axios.post`): `.error ()`
when it throws (network failure or non-2xx), `.ok tok` when it resolves with
`response.data.access_token = tok` (`none` models an absent field).  A falsy
`code` (absent or empty) yields 400 before any exchange; a thrown exchange
yields 500 from the catch block, with the session untouched on both paths. -/
def githubCallback (q : CallbackQuery) (sess : Session)
    (exchange : Except Unit (Option String)) : CallbackResult :=
  match q.code with
  | none => { status := 400, session := sess, exchangeCalled := false }
  | some c =>
    if c == "" then { status := 400, session := sess, exchangeCalled := false }
    else
      match exchange with
      | Except.error _ => { status := 500, session := sess, exchangeCalled := true }
      | Except.ok tok =>
        { status := 200, session := { githubToken := tok }, exchangeCalled := true }

/-- Result of one request to a GitHub proxy endpoint. -/
structure ProxyResult where
  status : Nat
  upstreamCalled : Bool
deriving DecidableEq, Repr

/-- Endpoint `GET /api/github/user` (server.ts, lines 85-99): a falsy session token
(absent or empty) yields 401 with no upstream request; otherwise the one
upstream request is proxied, 500 on a thrown upstream error. -/
def githubUserEndpoint (sess : Session) (upstream : Except Unit GithubUser) :
    ProxyResult :=
  match sess.githubToken with
  | none => { status := 401, upstreamCalled := false }
  | some t =>
    if t == "" then { status := 401, upstreamCalled := false }
    else
      match upstream with
      | Except.error _ => { status := 500, upstreamCalled := true }
      | Except.ok _ => { status := 200, upstreamCalled := true }

/-- Endpoint `GET /api/github/repos` (server.ts, lines 102-116): same gating as the
user endpoint, proxying the capped (`per_page=5`) repository request. -/
def githubReposEndpoint (sess : Session) (upstream : Except Unit (List Repo)) :
    ProxyResult :=
  match sess.githubToken with
  | none => { status := 401, upstreamCalled := false }
  | some t =>
    if t == "" then { status := 401, upstreamCalled := false }
    else
      match upstream with
      | Except.error _ => { status := 500, upstreamCalled := true }
      | Except.ok _ => { status := 200, upstreamCalled := true }

/-! ## Helper lemmas -/

/-- The chat message built by `chatWithMaps` always has the model role. -/
theorem chatWithMaps_role (out : Except Unit GenResponse) :
    (chatWithMaps out).2.role = Role.model := by
  cases out <;> rfl

/-- On a successful call `chatWithMaps` returns the API response itself as the
first component. -/
theorem chatWithMaps_fst (resp : GenResponse) :
    (chatWithMaps (Except.ok resp)).1 = resp := rfl

/-- Function `handleSend` never changes the zoom level. -/
theorem handleSend_zoom (s : AppState) (out : Except Unit GenResponse) :
    (handleSend s out).1.zoom = s.zoom := by
  unfold handleSend
  split
  · rfl
  · dsimp only
    split
    · split <;> rfl
    · rfl

/-- Function `handleSend` only ever appends to the transcript. -/
theorem handleSend_messages_extend (s : AppState) (out : Except Unit GenResponse) :
    ∃ tail, (handleSend s out).1.messages = s.messages ++ tail := by
  unfold handleSend
  split
  · exact ⟨[], by simp⟩
  · dsimp only
    split
    · split
      · refine ⟨[{ role := Role.user, text := s.input }, connectPromptMessage], ?_⟩
        simp
      · refine ⟨[{ role := Role.user, text := s.input }, repoListMessage s.githubRepos], ?_⟩
        simp
    · refine ⟨[{ role := Role.user, text := s.input }, (chatWithMaps out).2], ?_⟩
      simp

/-- A single client operation keeps the zoom level inside `[3, 18]`. -/
theorem step_zoom_bounds (s : AppState) (op : AppOp)
    (h3 : 3 ≤ s.zoom) (h18 : s.zoom ≤ 18) :
    3 ≤ (step s op).1.zoom ∧ (step s op).1.zoom ≤ 18 := by
  cases op with
  | send out =>
    simp only [step, handleSend_zoom]
    exact ⟨h3, h18⟩
  | setInput t => exact ⟨h3, h18⟩
  | oauthMessage origin data =>
    simp only [step]
    split
    · split
      · exact ⟨h3, h18⟩
      · exact ⟨h3, h18⟩
    · exact ⟨h3, h18⟩
  | fetchUserResult result => cases result <;> exact ⟨h3, h18⟩
  | fetchReposResult result => cases result <;> exact ⟨h3, h18⟩
  | geolocateOk c => exact ⟨h3, h18⟩
  | geolocateErr => exact ⟨h3, h18⟩
  | mapClick lat lng => exact ⟨by simp only [step]; norm_num, by simp only [step]; norm_num⟩
  | recenter =>
    simp only [step]
    cases s.location
    · exact ⟨h3, h18⟩
    · exact ⟨h3, h18⟩
  | zoomIn =>
    refine ⟨le_min (by omega) (by omega), min_le_right _ _⟩
  | zoomOut =>
    refine ⟨le_max_right _ _, max_le (by omega) (by omega)⟩
  | clearChat => exact ⟨h3, h18⟩

/-! ## Claim theorems -/

/-- Claim C4: a callback request with a missing `code` query parameter gets
HTTP 400, with no token exchange issued and the session unchanged; a callback
request whose token exchange fails gets an error status (500), again with the
session unchanged (so an unlinked session stays unlinked on both paths). -/
theorem callback_error_paths (st : Option String) (sess : Session)
    (exchange : Except Unit (Option String)) (c : String) (hc : c ≠ "") :
    githubCallback { code := none, state := st } sess exchange
        = { status := 400, session := sess, exchangeCalled := false }
      ∧ githubCallback { code := some c, state := st } sess (Except.error ())
        = { status := 500, session := sess, exchangeCalled := true } := by
  constructor
  · rfl
  · have hc' : (c == "") = false := by simpa using hc
    simp [githubCallback, hc']

/-- Witness for C4 at a concrete request: `state` present, code absent or the
exchange throwing, starting from an unlinked session. -/
theorem callback_error_paths_witness :
    ("badcode" : String) ≠ ""
      ∧ (githubCallback { code := none, state := some "xyz" }
            { githubToken := none } (Except.ok (some "tok"))
          = { status := 400, session := { githubToken := none }, exchangeCalled := false }
        ∧ githubCallback { code := some "badcode", state := some "xyz" }
            { githubToken := none } (Except.error ())
          = { status := 500, session := { githubToken := none }, exchangeCalled := true }) :=
  ⟨by decide,
    callback_error_paths (some "xyz") { githubToken := none }
      (Except.ok (some "tok")) "badcode" (by decide)⟩

/-- Claim C6: with no session token present, both `GET /api/github/user` and
`GET /api/github/repos` answer 401 and issue no upstream request, whatever the
upstream would have answered. -/
theorem no_session_token_yields_401 (sess : Session)
    (hnone : sess.githubToken = none)
    (upUser : Except Unit GithubUser) (upRepos : Except Unit (List Repo)) :
    githubUserEndpoint sess upUser = { status := 401, upstreamCalled := false }
      ∧ githubReposEndpoint sess upRepos = { status := 401, upstreamCalled := false } := by
  constructor
  · simp [githubUserEndpoint, hnone]
  · simp [githubReposEndpoint, hnone]

/-- Witness for C6 at a concrete unauthenticated session. -/
theorem no_session_token_yields_401_witness :
    ({ githubToken := none } : Session).githubToken = none
      ∧ (githubUserEndpoint { githubToken := none }
            (Except.ok { login := "octo", name := none, avatar_url := "a" })
          = { status := 401, upstreamCalled := false }
        ∧ githubReposEndpoint { githubToken := none } (Except.ok [])
          = { status := 401, upstreamCalled := false }) :=
  ⟨rfl,
    no_session_token_yields_401 { githubToken := none } rfl
      (Except.ok { login := "octo", name := none, avatar_url := "a" })
      (Except.ok [])⟩

/-- Claim C10: the callback endpoint never reads the `state` query parameter —
two requests that differ only in `state` (including an absent one) trigger the
same exchange behaviour, the same session mutation and the same response. -/
theorem callback_ignores_state_param (code : Option String)
    (st1 st2 : Option String) (sess : Session)
    (exchange : Except Unit (Option String)) :
    githubCallback { code := code, state := st1 } sess exchange
      = githubCallback { code := code, state := st2 } sess exchange := by
  cases code <;> rfl

/-- Claim C8: submitting empty or whitespace-only text, or submitting while a
request is in flight, leaves the state untouched and performs no network
call. -/
theorem empty_or_busy_submit_noop (s : AppState) (out : Except Unit GenResponse)
    (h : jsTrim s.input = "" ∨ s.isLoading = true) :
    handleSend s out = (s, {}) := by
  unfold handleSend
  rcases h with h | h <;> simp [h]

/-- Witness for C8: a whitespace-only input in the idle initial state. -/
theorem empty_or_busy_submit_noop_witness :
    (jsTrim ("   " : String) = "" ∨ (false : Bool) = true)
      ∧ handleSend { initialState with input := "   " } (Except.error ())
        = ({ initialState with input := "   " }, {}) :=
  ⟨Or.inl (by decide),
    empty_or_busy_submit_noop { initialState with input := "   " }
      (Except.error ()) (Or.inl (by decide))⟩

/-- Claim C9: a map click at `(lat, lng)` sets the map center to exactly
`(lat, lng)` and the zoom level to exactly 15, changes no other application
state, and performs no network call. -/
theorem map_click_sets_center_and_zoom (s : AppState) (lat lng : ℚ) :
    (step s (AppOp.mapClick lat lng)).1.mapCenter = (lat, lng)
      ∧ (step s (AppOp.mapClick lat lng)).1.zoom = 15
      ∧ (step s (AppOp.mapClick lat lng)).1.messages = s.messages
      ∧ (step s (AppOp.mapClick lat lng)).1.input = s.input
      ∧ (step s (AppOp.mapClick lat lng)).1.isLoading = s.isLoading
      ∧ (step s (AppOp.mapClick lat lng)).1.location = s.location
      ∧ (step s (AppOp.mapClick lat lng)).1.githubUser = s.githubUser
      ∧ (step s (AppOp.mapClick lat lng)).1.githubRepos = s.githubRepos
      ∧ (step s (AppOp.mapClick lat lng)).2 = {} :=
  ⟨rfl, rfl, rfl, rfl, rfl, rfl, rfl, rfl, rfl⟩

/-- Counterexample to claim C3 as stated: the code filters origins with
`origin.endsWith(".run.app") || origin.includes("localhost")` (App.tsx, line
48), so the origin `https://localhost.evil.example` — which is neither the
deployed application host (modelled as `https://geoguide.run.app`) nor a
local-development origin — passes the filter, and a matching message from it
does trigger the profile fetch. -/
theorem oauth_origin_check_counterexample :
    specAllowedOrigin "https://geoguide.run.app" "https://localhost.evil.example" = false
      ∧ (step initialState
          (AppOp.oauthMessage "https://localhost.evil.example"
            (some { type := some "OAUTH_AUTH_SUCCESS", provider := some "github" }))).2.userFetches
        = 1 := by
  constructor
  · decide
  · decide

/-- Claim C3 (amended): a cross-window `OAUTH_AUTH_SUCCESS`/`github` message
is accepted exactly when the sender origin ends with `.run.app` or contains
the substring `localhost`; for every message whose origin fails that check —
in particular `https://evil.example` — the handler performs no fetch and
changes no state. -/
theorem oauth_message_origin_filtered (s : AppState) (origin : String)
    (data : Option MessageData) (h : acceptOrigin origin = false) :
    step s (AppOp.oauthMessage origin data) = (s, {}) := by
  simp [step, h]

/-- Witness for amended C3: a matching message from `https://evil.example` is
ignored by the handler. -/
theorem oauth_message_origin_filtered_witness :
    acceptOrigin "https://evil.example" = false
      ∧ step initialState
          (AppOp.oauthMessage "https://evil.example"
            (some { type := some "OAUTH_AUTH_SUCCESS", provider := some "github" }))
        = (initialState, {}) :=
  ⟨by decide,
    oauth_message_origin_filtered initialState "https://evil.example"
      (some { type := some "OAUTH_AUTH_SUCCESS", provider := some "github" })
      (by decide)⟩

/-- Claim C5: starting from the initial state, after any sequence of client
operations (which include the zoom increment and decrement buttons and the
programmatic zoom set of a map click) the zoom level is in `[3, 18]`; in
particular ten increments from the initial zoom 13 give 18, not 23. -/
theorem zoom_always_in_bounds :
    (∀ ops : List AppOp,
        3 ≤ (run initialState ops).zoom ∧ (run initialState ops).zoom ≤ 18)
      ∧ (run initialState (List.replicate 10 AppOp.zoomIn)).zoom = 18 := by
  constructor
  · have key : ∀ (ops : List AppOp) (s : AppState),
        3 ≤ s.zoom → s.zoom ≤ 18 →
        3 ≤ (run s ops).zoom ∧ (run s ops).zoom ≤ 18 := by
      intro ops
      induction ops with
      | nil => intro s h3 h18; exact ⟨h3, h18⟩
      | cons op rest ih =>
        intro s h3 h18
        have h := step_zoom_bounds s op h3 h18
        simpa [run] using ih (step s op).1 h.1 h.2
    intro ops
    exact key ops initialState (by decide) (by decide)
  · decide

/-- Claim C7: the transcript is append-only — every client operation leaves
the existing message sequence as a prefix of the new one (in particular the
Clear Chat button, which has no handler, deletes nothing). -/
theorem transcript_append_only (s : AppState) (op : AppOp) :
    ∃ tail, (step s op).1.messages = s.messages ++ tail := by
  cases op with
  | send out => exact handleSend_messages_extend s out
  | setInput t => exact ⟨[], by simp [step]⟩
  | oauthMessage origin data =>
    refine ⟨[], ?_⟩
    simp only [step]
    split
    · split
      · simp
      · simp
    · simp
  | fetchUserResult result => cases result <;> exact ⟨[], by simp [step]⟩
  | fetchReposResult result => cases result <;> exact ⟨[], by simp [step]⟩
  | geolocateOk c => exact ⟨[], by simp [step]⟩
  | geolocateErr => exact ⟨[], by simp [step]⟩
  | mapClick lat lng => exact ⟨[], by simp [step]⟩
  | recenter =>
    refine ⟨[], ?_⟩
    simp only [step]
    cases s.location
    · simp
    · simp
  | zoomIn => exact ⟨[], by simp [step]⟩
  | zoomOut => exact ⟨[], by simp [step]⟩
  | clearChat => exact ⟨[], by simp [step]⟩

/-- Claim C1: submitting non-empty (after trimming) text while idle always
grows the transcript by exactly two messages — the user turn followed by one
assistant turn, which on any transport or API error is the fixed error text —
and the loading flag is false when the operation completes, on success and on
failure alike. -/
theorem submit_appends_two_and_clears_loading (s : AppState)
    (out : Except Unit GenResponse)
    (hin : ¬ jsTrim s.input = "") (hld : s.isLoading = false) :
    ∃ reply : ChatMessage,
      (handleSend s out).1.messages
          = s.messages ++ [{ role := Role.user, text := s.input }, reply]
        ∧ reply.role = Role.model
        ∧ (handleSend s out).1.isLoading = false
        ∧ (out = Except.error () → reply = errorChatMessage) := by
  have hin' : (jsTrim s.input == "") = false := by simpa using hin
  cases out with
  | error e =>
    refine ⟨errorChatMessage, ?_, rfl, ?_, fun _ => rfl⟩
    · simp [handleSend, hin', hld, chatWithMaps, emptyResponse, hasListReposCall]
    · simp [handleSend, hin', hld, chatWithMaps, emptyResponse, hasListReposCall]
  | ok resp =>
    by_cases hfc : hasListReposCall resp.functionCalls = true
    · by_cases hgu : s.githubUser = none
      · refine ⟨connectPromptMessage, ?_, rfl, ?_,
          fun h => Except.noConfusion h⟩
        · simp [handleSend, hin', hld, chatWithMaps, hfc, hgu]
        · simp [handleSend, hin', hld, chatWithMaps, hfc, hgu]
      · refine ⟨repoListMessage s.githubRepos, ?_, rfl, ?_,
          fun h => Except.noConfusion h⟩
        · simp [handleSend, hin', hld, chatWithMaps, hfc,
            Option.isNone_iff_eq_none, hgu]
        · simp [handleSend, hin', hld, chatWithMaps, hfc,
            Option.isNone_iff_eq_none, hgu]
    · refine ⟨(chatWithMaps (Except.ok resp)).2, ?_,
        chatWithMaps_role (Except.ok resp), ?_, fun h => Except.noConfusion h⟩
      · simp [handleSend, hin', hld, chatWithMaps_fst, hfc]
      · simp [handleSend, hin', hld, chatWithMaps_fst, hfc]

/-- Witness for C1: the concrete submission "hello" from the idle initial
state with a failing API call yields the user turn plus the fixed error
message. -/
theorem submit_appends_two_and_clears_loading_witness :
    (¬ jsTrim ("hello" : String) = "")
      ∧ ∃ reply : ChatMessage,
          (handleSend { initialState with input := "hello" } (Except.error ())).1.messages
              = [greetingMessage]
                  ++ [{ role := Role.user, text := "hello" }, reply]
            ∧ reply.role = Role.model
            ∧ (handleSend { initialState with input := "hello" } (Except.error ())).1.isLoading
              = false
            ∧ ((Except.error () : Except Unit GenResponse) = Except.error ()
                → reply = errorChatMessage) :=
  ⟨by decide,
    submit_appends_two_and_clears_loading { initialState with input := "hello" }
      (Except.error ()) (by decide) rfl⟩

/-- Claim C2: when the API response signals the `list_github_repositories`
tool call, the appended assistant turn is the fixed prompt-to-link text when
no account is linked, and otherwise the markdown list of the cached
repositories — the newline-join of one bullet line per repository, each line
carrying the repository name as link text and its URI as link target — and in
both cases exactly one generative-API call is made for the turn. -/
theorem list_repositories_tool_call (s : AppState) (resp : GenResponse)
    (hin : ¬ jsTrim s.input = "") (hld : s.isLoading = false)
    (hfc : hasListReposCall resp.functionCalls = true) :
    (handleSend s (Except.ok resp)).2 = { genCalls := 1 }
      ∧ (s.githubUser = none →
          (handleSend s (Except.ok resp)).1.messages
            = s.messages
                ++ [{ role := Role.user, text := s.input }, connectPromptMessage])
      ∧ (s.githubUser ≠ none →
          (handleSend s (Except.ok resp)).1.messages
            = s.messages
                ++ [{ role := Role.user, text := s.input },
                    repoListMessage s.githubRepos])
      ∧ (repoListMessage s.githubRepos).text
          = "Here are your most recent GitHub repositories:\n\n"
              ++ String.intercalate "\n" (s.githubRepos.map repoLine)
      ∧ (s.githubRepos.map repoLine).length = s.githubRepos.length
      ∧ ∀ r ∈ s.githubRepos,
          repoLine r
            = "- [" ++ r.name ++ "](" ++ r.html_url ++ "): "
                ++ descOr r.description := by
  have hin' : (jsTrim s.input == "") = false := by simpa using hin
  refine ⟨?_, ?_, ?_, rfl, by simp, fun r _ => rfl⟩
  · cases hgu : s.githubUser with
    | none => simp [handleSend, hin', hld, chatWithMaps_fst, hfc, hgu]
    | some u => simp [handleSend, hin', hld, chatWithMaps_fst, hfc, hgu]
  · intro hgu
    simp [handleSend, hin', hld, chatWithMaps_fst, hfc, hgu]
  · intro hgu
    simp [handleSend, hin', hld, chatWithMaps_fst, hfc,
      Option.isNone_iff_eq_none, hgu]

/-- A linked account used by the C2 witness. -/
def witnessUser : GithubUser :=
  { login := "octo", name := some "Octo Cat", avatar_url := "https://a.example/octo" }

/-- Two cached repositories used by the C2 witness. -/
def witnessRepos : List Repo :=
  [{ name := "alpha", html_url := "https://github.com/octo/alpha", description := some "first" },
   { name := "beta", html_url := "https://github.com/octo/beta", description := none }]

/-- The client state used by the C2 witness: idle, non-empty input, linked
account, two cached repositories. -/
def witnessState : AppState :=
  { initialState with
      input := "show my repos"
      githubUser := some witnessUser
      githubRepos := witnessRepos }

/-- The API response used by the C2 witness: it signals the
`list_github_repositories` tool call. -/
def witnessResp : GenResponse :=
  { text := some ""
    functionCalls := some ["list_github_repositories"]
    groundingChunks := none }

/-- Witness for C2 at the concrete linked state with two cached
repositories. -/
theorem list_repositories_tool_call_witness :
    (¬ jsTrim witnessState.input = "")
      ∧ witnessState.isLoading = false
      ∧ hasListReposCall witnessResp.functionCalls = true
      ∧ ((handleSend witnessState (Except.ok witnessResp)).2 = { genCalls := 1 }
        ∧ (witnessState.githubUser = none →
            (handleSend witnessState (Except.ok witnessResp)).1.messages
              = witnessState.messages
                  ++ [{ role := Role.user, text := witnessState.input },
                      connectPromptMessage])
        ∧ (witnessState.githubUser ≠ none →
            (handleSend witnessState (Except.ok witnessResp)).1.messages
              = witnessState.messages
                  ++ [{ role := Role.user, text := witnessState.input },
                      repoListMessage witnessState.githubRepos])
        ∧ (repoListMessage witnessState.githubRepos).text
            = "Here are your most recent GitHub repositories:\n\n"
                ++ String.intercalate "\n" (witnessState.githubRepos.map repoLine)
        ∧ (witnessState.githubRepos.map repoLine).length
            = witnessState.githubRepos.length
        ∧ ∀ r ∈ witnessState.githubRepos,
            repoLine r
              = "- [" ++ r.name ++ "](" ++ r.html_url ++ "): "
                  ++ descOr r.description) :=
  ⟨by decide, by decide, by decide,
    list_repositories_tool_call witnessState witnessResp (by decide) (by decide)
      (by decide)⟩

end GeoGuide
